import Mathlib

/-!
Verification of the evocon extract-and-load pipeline.

The repository has two variants of the same script:
  * `evocon.py` (the later variant), embedded in namespace `Evocon`;
  * `rest_api_pipeline.py` (the earlier variant), embedded in namespace
    `RestApiPipeline`.

Python `datetime` values are modelled at day granularity by a natural
number: the number of days since 0000-03-01 in the proleptic Gregorian
calendar.  Comparison of (midnight) datetimes is the order on these
ordinals and `timedelta(days = n)` is addition of `n`.  `strftime` and
`strptime` with format `%Y-%m-%d` are modelled by `strftime` and
`strptime` below (zero-padded canonical `YYYY-MM-DD` form, years
1..9999, matching the strings this pipeline produces and consumes).
Python strings are modelled by `String` (or `List Char` where index
arithmetic on slices matters: `s[:5]` is `List.take 5`,
`s[-5:]` is `List.drop (length - 5)`).
-/

/-- Gregorian leap-year test, as in Python `calendar`/`datetime`. -/
def isLeapYear (y : Nat) : Bool :=
  y % 4 == 0 && (y % 100 != 0 || y % 400 == 0)

/-- Number of days in month `m` of year `y`. -/
def daysInMonth (y m : Nat) : Nat :=
  if m = 2 then (if isLeapYear y then 29 else 28)
  else if m = 4 ∨ m = 6 ∨ m = 9 ∨ m = 11 then 30
  else 31

/-- Day ordinal (days since 0000-03-01) of the civil date `y-m-d`. -/
def daysFromCivil (y m d : Nat) : Nat :=
  let yy := if m ≤ 2 then y - 1 else y
  let era := yy / 400
  let yoe := yy % 400
  let mp := (m + 9) % 12
  let doy := (153 * mp + 2) / 5 + (d - 1)
  let doe := 365 * yoe + yoe / 4 - yoe / 100 + doy
  era * 146097 + doe

/-- Civil date `(y, m, d)` of a day ordinal. -/
def civilFromDays (z : Nat) : Nat × Nat × Nat :=
  let era := z / 146097
  let doe := z % 146097
  let yoe := (doe - doe / 1460 + doe / 36524 - doe / 146096) / 365
  let y := yoe + era * 400
  let doy := doe - (365 * yoe + yoe / 4 - yoe / 100)
  let mp := (5 * doy + 2) / 153
  let d := doy - (153 * mp + 2) / 5 + 1
  let m := if mp < 10 then mp + 3 else mp - 9
  if m ≤ 2 then (y + 1, m, d) else (y, m, d)

/-- Zero-pad a number to two digits. -/
def pad2 (n : Nat) : String :=
  if n < 10 then "0" ++ toString n else toString n

/-- Zero-pad a number to four digits. -/
def pad4 (n : Nat) : String :=
  if n < 10 then "000" ++ toString n
  else if n < 100 then "00" ++ toString n
  else if n < 1000 then "0" ++ toString n
  else toString n

/-- Model of `datetime.strftime("%Y-%m-%d")` on a day ordinal. -/
def strftime (z : Nat) : String :=
  match civilFromDays z with
  | (y, m, d) => pad4 y ++ "-" ++ pad2 m ++ "-" ++ pad2 d

/-- Digit value of a character. -/
def digitVal (c : Char) : Nat := c.toNat - 48

/-- Model of `datetime.strptime(s, "%Y-%m-%d")` (canonical zero-padded
form): returns the day ordinal, or `none` when parsing fails (Python
raises `ValueError`). -/
def strptime (s : String) : Option Nat :=
  match s.data with
  | [y1, y2, y3, y4, h1, m1, m2, h2, d1, d2] =>
    if (y1.isDigit && y2.isDigit && y3.isDigit && y4.isDigit &&
        m1.isDigit && m2.isDigit && d1.isDigit && d2.isDigit &&
        h1 == '-' && h2 == '-') then
      let y := digitVal y1 * 1000 + digitVal y2 * 100 + digitVal y3 * 10 + digitVal y4
      let m := digitVal m1 * 10 + digitVal m2
      let d := digitVal d1 * 10 + digitVal d2
      if 1 ≤ y ∧ 1 ≤ m ∧ m ≤ 12 ∧ 1 ≤ d ∧ d ≤ daysInMonth y m then
        some (daysFromCivil y m d)
      else none
    else none
  | _ => none

/-- Query parameters attached to an endpoint: the date window. -/
structure EndpointParams where
  startTime : String
  endTime : String
deriving DecidableEq

/-- The URL of the GET request the REST framework issues for an endpoint
path: the client base URL followed by the path. -/
def request_url (base_url path : String) : String := base_url ++ path

namespace Evocon

/-- `evocon.py` line 14: module-level environment from
`dlt.config.get('runtime.environment') or 'prod'` (Python `or`:
a missing key or an empty string falls back to `"prod"`). -/
def ENVIRONMENT (runtime_environment : Option String) : String :=
  match runtime_environment with
  | none => "prod"
  | some v => if v = "" then "prod" else v

/-- `evocon.py` lines 16-24, the loop body of `date_range`: while
`current <= end`, yield the formatted day twice and step one day. -/
def date_range_loop (current endOrd : Nat) : List (String × String) :=
  if _h : current ≤ endOrd then
    (strftime current, strftime current) :: date_range_loop (current + 1) endOrd
  else []
termination_by endOrd + 1 - current
decreasing_by simp_wf; omega

/-- `evocon.py` lines 16-24: `date_range(start_date, end_date)`.  Both
bounds are parsed with `strptime`; a parse failure is a raised
`ValueError`, modelled as `none`. -/
def date_range (start_date end_date : String) : Option (List (String × String)) :=
  match strptime start_date, strptime end_date with
  | some a, some b => some (date_range_loop a b)
  | _, _ => none

/-- `evocon.py` lines 39-40: the logged credential preview
`f"{api_key[:5]}...{api_key[-5:]}"`, on the character list of the
credential. -/
def redact (s : List Char) : List Char :=
  s.take 5 ++ ('.' :: '.' :: '.' :: []) ++ s.drop (s.length - 5)

/-- A configured REST resource: name, endpoint path, endpoint params and
primary key, as in the entries of `base_config["resources"]`. -/
structure Resource where
  name : String
  path : String
  params : EndpointParams
  primary_key : List String
deriving DecidableEq

/-- The `client` section of `base_config`. -/
structure ClientConfig where
  base_url : String
  username : String
  password : String
deriving DecidableEq

/-- The REST API configuration built by `evocon_source`. -/
structure RESTAPIConfig where
  client : ClientConfig
  resources : List Resource
deriving DecidableEq

/-- Errors `evocon_source` can raise while resolving credentials:
`dlt.secrets[...]` raises on an absent key, and the explicit check at
lines 35-37 raises `ValueError` on an empty value. -/
inductive CredError where
  | keyMissing
  | secretMissing
  | invalidCredentials
deriving DecidableEq

/-- `evocon.py` lines 52-130: the `resources` list of `base_config`. -/
def evocon_resources (start_date end_date : String) : List Resource :=
  [ { name := "oee", path := "oee_json",
      params := { startTime := start_date, endTime := end_date },
      primary_key := ["shift_id"] },
    { name := "losses", path := "losses_json",
      params := { startTime := start_date, endTime := end_date },
      primary_key := ["id"] },
    { name := "scrap", path := "scrap_json",
      params := { startTime := start_date, endTime := end_date },
      primary_key := ["shift_id", "date", "station", "product_code", "scrap_reason_name"] },
    { name := "downtime", path := "downtime_json",
      params := { startTime := start_date, endTime := end_date },
      primary_key := ["stop_instance_id"] },
    { name := "checklists", path := "checklists_json",
      params := { startTime := start_date, endTime := end_date },
      primary_key := ["shift_id", "date", "station", "name", "itemname"] },
    { name := "quantity", path := "quantity_json",
      params := { startTime := start_date, endTime := end_date },
      primary_key := ["id"] } ]

/-- `evocon.py` lines 43-131: `base_config` (the `client_metrics` entry
is commented out in the source and so absent here). -/
def base_config (api_key api_secret start_date end_date : String) : RESTAPIConfig :=
  { client :=
      { base_url := "https://api.evocon.com/api/reports/",
        username := api_key,
        password := api_secret },
    resources := evocon_resources start_date end_date }

/-- `evocon.py` lines 27-143: `evocon_source`.  The two secrets are read
first (`dlt.secrets[...]` raises when the key is absent), then the
emptiness check at lines 35-37 raises `ValueError`; only after that is
`rest_api_source(base_config)` constructed.  An `Except.error` therefore
means the run halts before the REST source exists and before any HTTP
request. -/
def evocon_source (api_key api_secret : Option String) (start_date end_date : String) :
    Except CredError RESTAPIConfig :=
  match api_key with
  | none => Except.error CredError.keyMissing
  | some k =>
    match api_secret with
    | none => Except.error CredError.secretMissing
    | some s =>
      if k = "" ∨ s = "" then Except.error CredError.invalidCredentials
      else Except.ok (base_config k s start_date end_date)

/-- `evocon.py` line 154-155: default for a missing (`None` or empty)
start date is two days before today. -/
def resolved_start (today : Nat) (start_date : Option String) : String :=
  match start_date with
  | none => strftime (today - 2)
  | some s => if s = "" then strftime (today - 2) else s

/-- `evocon.py` line 156-157: default for a missing end date is today. -/
def resolved_end (today : Nat) (end_date : Option String) : String :=
  match end_date with
  | none => strftime today
  | some s => if s = "" then strftime today else s

/-- The pipeline run assembled by `load_evocon_data`: the arguments of
`dlt.pipeline` and of `pipeline.run`. -/
structure PipelineRun where
  pipeline_name : String
  destination : String
  dataset_name : String
  write_disposition : String
  source : Except CredError RESTAPIConfig

/-- `evocon.py` lines 145-174: `load_evocon_data`.  `runtime_environment`
is the dlt config value behind the module-level `ENVIRONMENT`;
`api_key`/`api_secret` are the secret-store values read inside
`evocon_source`; `today` is the day ordinal of `datetime.now()`.  The
`environment` parameter is accepted (as in the source) but never read:
the dataset name depends only on the module-level `ENVIRONMENT`. -/
def load_evocon_data (runtime_environment api_key api_secret : Option String)
    (today : Nat) (start_date end_date : Option String)
    (write_disposition : String) (environment : String) : PipelineRun :=
  let s := resolved_start today start_date
  let e := resolved_end today end_date
  let dataset_name :=
    "evocon" ++ (if ENVIRONMENT runtime_environment = "dev" then "_staging" else "")
  { pipeline_name := "evocon_pipeline",
    destination := "snowflake",
    dataset_name := dataset_name,
    write_disposition := write_disposition,
    source := evocon_source api_key api_secret s e }

/-- The parsed CLI arguments of `evocon.py` lines 178-183. -/
structure Args where
  start_date : Option String
  end_date : Option String
  full_refresh : Bool
  environment : String

/-- `evocon.py` lines 185-190: the `__main__` entry point calls
`load_evocon_data` with `write_disposition = "replace" if
args.full_refresh else "merge"`. -/
def main_run (runtime_environment api_key api_secret : Option String)
    (today : Nat) (args : Args) : PipelineRun :=
  load_evocon_data runtime_environment api_key api_secret today
    args.start_date args.end_date
    (if args.full_refresh then "replace" else "merge")
    args.environment

end Evocon

namespace RestApiPipeline

/-- `rest_api_pipeline.py` lines 9-12: `get_date_range` returns
`(today - 1 day, today)`. -/
def get_date_range (today : Nat) : String × String :=
  (strftime (today - 1), strftime today)

/-- A resource entry of the earlier variant: name and path only (params
and write disposition live in `resource_defaults`). -/
structure Resource where
  name : String
  path : String
deriving DecidableEq

/-- The `resource_defaults` section of the earlier variant. -/
structure ResourceDefaults where
  write_disposition : String
  params : EndpointParams
deriving DecidableEq

/-- The `client` section: `dlt.secrets.get` returns `None` when the key
is absent, so the credentials are optional here. -/
structure ClientConfig where
  base_url : String
  username : Option String
  password : Option String
deriving DecidableEq

/-- The REST API configuration of the earlier variant. -/
structure RESTAPIConfig where
  client : ClientConfig
  resource_defaults : ResourceDefaults
  resources : List Resource
deriving DecidableEq

/-- `rest_api_pipeline.py` lines 14-58: `evocon_source`.  No credential
check is performed: `dlt.secrets.get` may return `None` and the config
is built and `rest_api_source(config)` constructed regardless. -/
def evocon_source (today : Nat) (api_key api_secret : Option String) : RESTAPIConfig :=
  let dates := get_date_range today
  { client :=
      { base_url := "https://api.evocon.com/api/reports/",
        username := api_key,
        password := api_secret },
    resource_defaults :=
      { write_disposition := "merge",
        params := { startTime := dates.1, endTime := dates.2 } },
    resources :=
      [ { name := "oee", path := "oee_json" },
        { name := "losses", path := "losses_json" },
        { name := "client_metrics", path := "clientmetrics_json" } ] }

/-- The params the REST framework uses for a resource of the earlier
variant: the resource entries declare none of their own, so the merged
`resource_defaults` params apply. -/
def effective_params (cfg : RESTAPIConfig) (_r : Resource) : EndpointParams :=
  cfg.resource_defaults.params

/-- The pipeline run of the earlier variant. -/
structure PipelineRun where
  pipeline_name : String
  destination : String
  dataset_name : String
  source : RESTAPIConfig

/-- `rest_api_pipeline.py` lines 60-68: `load_evocon_data` with the
fixed dataset name `"evocon_data"`. -/
def load_evocon_data (today : Nat) (api_key api_secret : Option String) : PipelineRun :=
  { pipeline_name := "evocon_pipeline",
    destination := "snowflake",
    dataset_name := "evocon_data",
    source := evocon_source today api_key api_secret }

end RestApiPipeline

/-! ## Helper lemmas -/

theorem take_set_of_le {α : Type} (a : α) :
    ∀ (l : List α) (i j : Nat), j ≤ i → (l.set i a).take j = l.take j := by
  intro l
  induction l with
  | nil => intro i j _; rfl
  | cons x xs ih =>
    intro i j hj
    cases i with
    | zero =>
      have hj0 : j = 0 := Nat.le_zero.mp hj
      subst hj0; rfl
    | succ i =>
      cases j with
      | zero => rfl
      | succ j =>
        simp only [List.set, List.take]
        rw [ih i j (Nat.le_of_succ_le_succ hj)]

theorem drop_set_of_lt {α : Type} (a : α) :
    ∀ (l : List α) (i j : Nat), i < j → (l.set i a).drop j = l.drop j := by
  intro l
  induction l with
  | nil => intro i j _; rfl
  | cons x xs ih =>
    intro i j hij
    cases j with
    | zero => omega
    | succ j =>
      cases i with
      | zero => rfl
      | succ i =>
        simp only [List.set, List.drop]
        exact ih i j (Nat.lt_of_succ_lt_succ hij)

theorem date_range_loop_eq (n : Nat) :
    ∀ a b : Nat, b + 1 - a = n →
      Evocon.date_range_loop a b
        = (List.range n).map (fun i => (strftime (a + i), strftime (a + i))) := by
  induction n with
  | zero =>
    intro a b h
    unfold Evocon.date_range_loop
    rw [dif_neg (by omega)]
    rfl
  | succ n ih =>
    intro a b h
    unfold Evocon.date_range_loop
    rw [dif_pos (by omega)]
    rw [ih (a + 1) b (by omega)]
    rw [List.range_succ_eq_map]
    simp only [List.map_cons, List.map_map, Nat.add_zero]
    congr 1
    apply List.map_congr_left
    intro i _
    simp only [Function.comp]
    have hadd : a + 1 + i = a + Nat.succ i := by omega
    rw [hadd]

/-! ## Claim theorems -/

/-- Claim C10: for parseable dates, `date_range` yields exactly one pair
per calendar day from the start date to the end date inclusive, in
ascending day order, with both components of each pair equal to that
day's formatted `YYYY-MM-DD` string; when the start date is after the
end date it yields nothing. -/
theorem date_range_enumerates_days (s e : String) (a b : Nat)
    (hs : strptime s = some a) (he : strptime e = some b) :
    Evocon.date_range s e
      = some ((List.range (b + 1 - a)).map
          (fun i => (strftime (a + i), strftime (a + i)))) ∧
    (b < a → Evocon.date_range s e = some []) := by
  have h1 : Evocon.date_range s e = some (Evocon.date_range_loop a b) := by
    unfold Evocon.date_range
    rw [hs, he]
  constructor
  · rw [h1, date_range_loop_eq (b + 1 - a) a b rfl]
  · intro hba
    rw [h1, date_range_loop_eq 0 a b (by omega)]
    rfl

/-- Claim C10 witness: the range from 2024-02-28 (ordinal 739249) to
2024-03-01 (ordinal 739251) spans the three days of a leap-year
February boundary. -/
theorem date_range_enumerates_days_witness :
    Evocon.date_range "2024-02-28" "2024-03-01"
      = some ((List.range (739251 + 1 - 739249)).map
          (fun i => (strftime (739249 + i), strftime (739249 + i)))) :=
  (date_range_enumerates_days "2024-02-28" "2024-03-01" 739249 739251
    (by decide) (by decide)).1

/-- Claim C1 counterexample: in the earlier variant
(`rest_api_pipeline.py`), `evocon_source` performs no credential check
at all — with both secrets absent it still builds the full REST
configuration (and hands it to `rest_api_source`), rather than raising.
So the claim that `evocon_source` raises before the REST source is
constructed fails on that variant. -/
theorem rest_api_pipeline_no_credential_check :
    RestApiPipeline.evocon_source 739200 none none =
      { client :=
          { base_url := "https://api.evocon.com/api/reports/",
            username := none,
            password := none },
        resource_defaults :=
          { write_disposition := "merge",
            params := { startTime := "2024-01-09", endTime := "2024-01-10" } },
        resources :=
          [ { name := "oee", path := "oee_json" },
            { name := "losses", path := "losses_json" },
            { name := "client_metrics", path := "clientmetrics_json" } ] } := by
  rfl

/-- Claim C1 (amended): in the later variant (`evocon.py`),
`evocon_source` raises before the REST source is constructed whenever
either credential is absent (the secrets lookup raises) or empty (the
explicit check raises `ValueError`), and with both credentials present
and non-empty it raises no credential error and builds `base_config`.
The earlier variant performs no such check. -/
theorem evocon_source_credential_check (k s sd ed : String) :
    (∀ os : Option String, (Evocon.evocon_source none os sd ed).isOk = false) ∧
    (Evocon.evocon_source (some k) none sd ed).isOk = false ∧
    ((k = "" ∨ s = "") →
      (Evocon.evocon_source (some k) (some s) sd ed).isOk = false) ∧
    (k ≠ "" → s ≠ "" →
      Evocon.evocon_source (some k) (some s) sd ed
        = Except.ok (Evocon.base_config k s sd ed)) := by
  refine ⟨fun os => rfl, rfl, ?_, ?_⟩
  · intro hks
    simp only [Evocon.evocon_source]
    rw [if_pos hks]
    rfl
  · intro hk hs
    simp only [Evocon.evocon_source]
    rw [if_neg (by simp [hk, hs])]

/-- Claim C1 witness: an empty key raises, and concrete non-empty
credentials yield the configuration with no credential error. -/
theorem evocon_source_credential_check_witness :
    (Evocon.evocon_source (some "") (some "abcdefgh") "2024-01-01" "2024-01-02").isOk
      = false ∧
    Evocon.evocon_source (some "key123") (some "sec456") "2024-01-01" "2024-01-02"
      = Except.ok (Evocon.base_config "key123" "sec456" "2024-01-01" "2024-01-02") :=
  ⟨(evocon_source_credential_check "" "abcdefgh" "2024-01-01" "2024-01-02").2.2.1
      (Or.inl rfl),
   (evocon_source_credential_check "key123" "sec456" "2024-01-01" "2024-01-02").2.2.2
      (by decide) (by decide)⟩

/-- Claim C2 counterexample: in the earlier variant
(`rest_api_pipeline.py`), every run uses the fixed dataset name
`"evocon_data"`, which matches neither `"evocon"` nor
`"evocon_staging"`, so the dataset name of a run does not always match
the pattern the claim states. -/
theorem rest_api_pipeline_dataset_name :
    (RestApiPipeline.load_evocon_data 739200 (some "key123") (some "sec456")).dataset_name
      = "evocon_data" ∧
    ("evocon_data" : String) ≠ "evocon" ∧
    ("evocon_data" : String) ≠ "evocon_staging" :=
  ⟨rfl, by decide, by decide⟩

/-- Claim C2 (amended): in the later variant (`evocon.py`), a run with
the dlt runtime environment configured as `dev` uses dataset name
`evocon_staging` and one configured as `prod` uses `evocon`, and these
two names are distinct, so dev and prod runs write to distinct
datasets; the earlier variant instead always uses `evocon_data`. -/
theorem dataset_name_by_environment (k s : Option String) (today : Nat)
    (sd ed : Option String) (wd env : String) :
    (Evocon.load_evocon_data (some "dev") k s today sd ed wd env).dataset_name
      = "evocon_staging" ∧
    (Evocon.load_evocon_data (some "prod") k s today sd ed wd env).dataset_name
      = "evocon" ∧
    ("evocon_staging" : String) ≠ "evocon" :=
  ⟨rfl, rfl, by decide⟩

/-- Claim C3: with no explicit dates, the later variant computes the
window `[today - 2 days, today]` (and hands exactly that window to
`evocon_source`), the earlier variant computes `[today - 1 day, today]`
(both in `get_date_range` and inside its source configuration), and in
the later variant explicitly given non-empty dates are used unchanged. -/
theorem default_date_window (renv k s : Option String) (today : Nat)
    (wd env sd ed : String) :
    ((Evocon.load_evocon_data renv k s today none none wd env).source
       = Evocon.evocon_source k s (strftime (today - 2)) (strftime today)) ∧
    (RestApiPipeline.get_date_range today = (strftime (today - 1), strftime today)) ∧
    ((RestApiPipeline.evocon_source today k s).resource_defaults.params
       = { startTime := strftime (today - 1), endTime := strftime today }) ∧
    (sd ≠ "" → ed ≠ "" →
      (Evocon.load_evocon_data renv k s today (some sd) (some ed) wd env).source
        = Evocon.evocon_source k s sd ed) := by
  refine ⟨rfl, rfl, rfl, ?_⟩
  intro hsd hed
  simp only [Evocon.load_evocon_data, Evocon.resolved_start, Evocon.resolved_end]
  rw [if_neg hsd, if_neg hed]

/-- Claim C3 witness: at today = ordinal 739200 (2024-01-10) the
defaults are 2024-01-08 and 2024-01-09 respectively, and explicit dates
pass through unchanged. -/
theorem default_date_window_witness :
    ((Evocon.load_evocon_data (some "prod") (some "key123") (some "sec456")
        739200 none none "merge" "dev").source
       = Evocon.evocon_source (some "key123") (some "sec456")
           (strftime (739200 - 2)) (strftime 739200)) ∧
    ((Evocon.load_evocon_data (some "prod") (some "key123") (some "sec456")
        739200 (some "2024-01-01") (some "2024-01-05") "merge" "dev").source
       = Evocon.evocon_source (some "key123") (some "sec456")
           "2024-01-01" "2024-01-05") :=
  ⟨(default_date_window (some "prod") (some "key123") (some "sec456") 739200
      "merge" "dev" "2024-01-01" "2024-01-05").1,
   (default_date_window (some "prod") (some "key123") (some "sec456") 739200
      "merge" "dev" "2024-01-01" "2024-01-05").2.2.2 (by decide) (by decide)⟩

/-- Claim C4: the `__main__` entry point of `evocon.py` runs the
pipeline with write disposition `replace` exactly when `--full-refresh`
is passed and `merge` otherwise; the disposition is a single run-level
argument of `pipeline.run`, so it applies to every resource of the
run. -/
theorem full_refresh_write_disposition (renv k s : Option String) (today : Nat)
    (args : Evocon.Args) :
    ((Evocon.main_run renv k s today args).write_disposition
       = if args.full_refresh then "replace" else "merge") ∧
    ((Evocon.main_run renv k s today args).write_disposition = "replace"
       ↔ args.full_refresh = true) := by
  refine ⟨rfl, ?_⟩
  cases h : args.full_refresh with
  | true => simp [Evocon.main_run, Evocon.load_evocon_data, h]
  | false => simp [Evocon.main_run, Evocon.load_evocon_data, h]

/-- Claim C5: the code at the failing input.  The dates 2024-01-05 and
2024-01-03 are parseable and out of order (ordinal 739195 > 739193),
yet `load_evocon_data` raises no error: with valid credentials it
proceeds to build the full pipeline run whose source carries the
out-of-order window `startTime = 2024-01-05 > endTime = 2024-01-03`.
The spec says such input should be rejected (`InvalidDateError`); the
code has no such guard. -/
theorem out_of_order_window_not_rejected :
    strptime "2024-01-05" = some 739195 ∧
    strptime "2024-01-03" = some 739193 ∧
    (739193 : Nat) < 739195 ∧
    (Evocon.load_evocon_data (some "prod") (some "key123") (some "sec456") 739200
        (some "2024-01-05") (some "2024-01-03") "merge" "prod").source
      = Except.ok (Evocon.base_config "key123" "sec456" "2024-01-05" "2024-01-03") :=
  ⟨by decide, by decide, by decide, rfl⟩

/-- Claim C9: `load_evocon_data` ignores its `environment` parameter —
two calls to it (or two `__main__` invocations differing only in
`--environment`) with everything else equal, including the module-level
configuration behind `ENVIRONMENT`, produce identical pipeline runs. -/
theorem environment_argument_irrelevant (renv k s : Option String) (today : Nat)
    (sd ed sd2 ed2 : Option String) (fr : Bool)
    (env1 env2 : String) (wdisp : String) :
    (Evocon.load_evocon_data renv k s today sd ed wdisp env1
       = Evocon.load_evocon_data renv k s today sd ed wdisp env2) ∧
    (Evocon.main_run renv k s today
        { start_date := sd2, end_date := ed2, full_refresh := fr, environment := env1 }
       = Evocon.main_run renv k s today
        { start_date := sd2, end_date := ed2, full_refresh := fr, environment := env2 }) :=
  ⟨rfl, rfl⟩

/-- Claim C6 counterexample: for the short credential `"abc"` the logged
preview is `"abc...abc"`, which contains the full credential value as a
substring — the preview does not conceal short credentials, refuting
the claim that the full value is never revealed regardless of length. -/
theorem redact_short_credential_reveals_value :
    Evocon.redact ("abc".data) = ("abc...abc").data ∧
    ("abc".data) <:+: Evocon.redact ("abc".data) := by
  refine ⟨by decide, [], ('.' :: '.' :: '.' :: 'a' :: 'b' :: 'c' :: []), by decide⟩

/-- Claim C6 (amended): the logged preview of a credential consists of
its first 5 and last 5 characters with an ellipsis between, and for
every credential longer than 10 characters the preview omits middle
characters, so the full value cannot be recovered from it: a distinct
credential produces the identical preview.  Credentials of length at
most 10 are not concealed (see the counterexample). -/
theorem redact_long_credential_not_recoverable (s : List Char) (h : 10 < s.length) :
    ∃ t : List Char, t ≠ s ∧ Evocon.redact t = Evocon.redact s := by
  have h5 : 5 < s.length := by omega
  refine ⟨s.set 5 (if s[5] = 'a' then 'b' else 'a'), ?_, ?_⟩
  · intro heq
    have h1 := congrArg (fun l => l[5]?) heq
    simp only at h1
    rw [List.getElem?_set_self h5, List.getElem?_eq_getElem h5] at h1
    have h2 : (if s[5] = 'a' then 'b' else 'a') = s[5] := Option.some.inj h1
    by_cases ha : s[5] = 'a'
    · rw [if_pos ha, ha] at h2
      exact absurd h2 (by decide)
    · rw [if_neg ha] at h2
      exact ha h2.symm
  · unfold Evocon.redact
    rw [List.length_set,
        take_set_of_le _ s 5 5 (Nat.le_refl 5),
        drop_set_of_lt _ s 5 (s.length - 5) (by omega)]

/-- Claim C6 witness: an 11-character credential has a distinct
counterpart with the same logged preview. -/
theorem redact_long_credential_not_recoverable_witness :
    ∃ t : List Char,
      t ≠ ("abcdefghijk".data) ∧ Evocon.redact t = Evocon.redact ("abcdefghijk".data) :=
  redact_long_credential_not_recoverable ("abcdefghijk".data) (by decide)

/-- Claim C7 counterexample: in the earlier variant
(`rest_api_pipeline.py`), the resource catalogue built by
`evocon_source` does contain a resource named `client_metrics`, with a
request configured for the `clientmetrics_json` path — the endpoint is
not disabled in that variant. -/
theorem rest_api_pipeline_client_metrics_present :
    ({ name := "client_metrics", path := "clientmetrics_json" } : RestApiPipeline.Resource)
      ∈ (RestApiPipeline.evocon_source 739200 none none).resources ∧
    "client_metrics"
      ∈ (RestApiPipeline.evocon_source 739200 none none).resources.map
          RestApiPipeline.Resource.name := by
  refine ⟨by decide, by decide⟩

/-- Claim C7 (amended): in the later variant (`evocon.py`), the
`client_metrics` endpoint is disabled — the catalogue produced by
`evocon_source` contains no resource named `client_metrics` and no
request configured for the `clientmetrics_json` path; in the earlier
variant the endpoint is present (see the counterexample). -/
theorem evocon_client_metrics_disabled (sd ed : String) :
    ("client_metrics" ∉ (Evocon.evocon_resources sd ed).map Evocon.Resource.name) ∧
    (∀ r ∈ Evocon.evocon_resources sd ed, r.path ≠ "clientmetrics_json") := by
  constructor
  · simp [Evocon.evocon_resources]
  · intro r hr
    simp only [Evocon.evocon_resources, List.mem_cons, List.not_mem_nil, or_false] at hr
    rcases hr with h | h | h | h | h | h <;> subst h <;> simp

/-- Claim C7 witness: concrete dates and the `oee` resource. -/
theorem evocon_client_metrics_disabled_witness :
    ("client_metrics"
       ∉ (Evocon.evocon_resources "2024-01-01" "2024-01-02").map Evocon.Resource.name) ∧
    ({ name := "oee", path := "oee_json",
       params := { startTime := "2024-01-01", endTime := "2024-01-02" },
       primary_key := ["shift_id"] } : Evocon.Resource).path ≠ "clientmetrics_json" :=
  ⟨(evocon_client_metrics_disabled "2024-01-01" "2024-01-02").1,
   (evocon_client_metrics_disabled "2024-01-01" "2024-01-02").2 _ (by decide)⟩

/-- Claim C8 counterexample: in the earlier variant the catalogue
contains the `client_metrics` resource whose configured path is
`clientmetrics_json`, so its request URL is not the base URL followed
by the resource name with suffix `_json` (that would be
`client_metrics_json`). -/
theorem rest_api_pipeline_client_metrics_path_mismatch :
    ({ name := "client_metrics", path := "clientmetrics_json" } : RestApiPipeline.Resource)
      ∈ (RestApiPipeline.evocon_source 739200 (some "key123") (some "sec456")).resources ∧
    request_url "https://api.evocon.com/api/reports/" "clientmetrics_json"
      ≠ "https://api.evocon.com/api/reports/" ++ "client_metrics" ++ "_json" := by
  refine ⟨by decide, by decide⟩

/-- Claim C8 (amended): in the later variant every catalogued resource
has request URL equal to the base `https://api.evocon.com/api/reports/`
followed by the resource name with suffix `_json`, carrying the
computed window as `startTime`/`endTime`; in the earlier variant the
effective parameters of every resource equal the computed window and
the URL pattern holds for every resource except `client_metrics`,
whose path lacks the underscore (see the counterexample). -/
theorem resource_request_urls (k s sd ed : String) (today : Nat)
    (k2 s2 : Option String) :
    ((Evocon.base_config k s sd ed).client.base_url
       = "https://api.evocon.com/api/reports/") ∧
    (∀ r ∈ (Evocon.base_config k s sd ed).resources,
        request_url (Evocon.base_config k s sd ed).client.base_url r.path
          = "https://api.evocon.com/api/reports/" ++ r.name ++ "_json"
        ∧ r.params = { startTime := sd, endTime := ed }) ∧
    (∀ r ∈ (RestApiPipeline.evocon_source today k2 s2).resources,
        RestApiPipeline.effective_params (RestApiPipeline.evocon_source today k2 s2) r
          = { startTime := strftime (today - 1), endTime := strftime today }
        ∧ (r.name ≠ "client_metrics" →
            request_url (RestApiPipeline.evocon_source today k2 s2).client.base_url r.path
              = "https://api.evocon.com/api/reports/" ++ r.name ++ "_json")) := by
  refine ⟨rfl, ?_, ?_⟩
  · intro r hr
    simp only [Evocon.base_config, Evocon.evocon_resources, List.mem_cons,
      List.not_mem_nil, or_false] at hr
    rcases hr with h | h | h | h | h | h <;> subst h <;> exact ⟨rfl, rfl⟩
  · intro r hr
    have hres : (RestApiPipeline.evocon_source today k2 s2).resources
        = [ { name := "oee", path := "oee_json" },
            { name := "losses", path := "losses_json" },
            { name := "client_metrics", path := "clientmetrics_json" } ] := rfl
    rw [hres] at hr
    simp only [List.mem_cons, List.not_mem_nil, or_false] at hr
    rcases hr with h | h | h <;> subst h
    · exact ⟨rfl, fun _ => rfl⟩
    · exact ⟨rfl, fun _ => rfl⟩
    · exact ⟨rfl, fun hn => absurd rfl hn⟩

/-- Claim C8 witness: the `oee` resource of each variant at concrete
inputs. -/
theorem resource_request_urls_witness :
    (request_url (Evocon.base_config "key123" "sec456" "2024-01-01" "2024-01-02").client.base_url
        ({ name := "oee", path := "oee_json",
           params := { startTime := "2024-01-01", endTime := "2024-01-02" },
           primary_key := ["shift_id"] } : Evocon.Resource).path
      = "https://api.evocon.com/api/reports/" ++ "oee" ++ "_json") ∧
    (RestApiPipeline.effective_params (RestApiPipeline.evocon_source 739300 none none)
        { name := "oee", path := "oee_json" }
      = { startTime := strftime (739300 - 1), endTime := strftime 739300 }) :=
  ⟨((resource_request_urls "key123" "sec456" "2024-01-01" "2024-01-02" 739300 none none).2.1
      _ (by decide)).1,
   ((resource_request_urls "key123" "sec456" "2024-01-01" "2024-01-02" 739300 none none).2.2
      _ (by decide)).1⟩
